import Mathlib

/-!
Shallow embedding of `src/ophyd_async/core/_device.py`: the `Device` tree
(naming, parent links, child enumeration), the connect orchestration state
machine (`Device.connect` with its task cache), the `DeviceConnector` fan-out,
`DeviceVector` (integer-keyed children), and `DeviceCollector.__exit__`.

Python exceptions are modelled by the `PyErr` inductive; `asyncio.Task`
handles by an identifier plus an observable status; `unittest.mock.Mock`
objects by the attribute path that derives them from the root mock.
-/

namespace OphydAsync

/-- The Python exception classes raised by the embedded code, with their
message where the source formats one. -/
inductive PyErr where
  | typeError (msg : String)
  | attributeError (msg : String)
  | assertionError (msg : String)
  | runtimeError (msg : String)
  | notConnected (msg : String)
  deriving Repr, DecidableEq

/-- Observable status of an `asyncio.Task`: still pending, finished without
exception, or finished with an exception. -/
inductive TaskStatus where
  | running
  | doneOk
  | doneErr
  deriving Repr, DecidableEq

/-- `task.done()` -/
def taskDone : TaskStatus → Bool
  | .running => false
  | .doneOk => true
  | .doneErr => true

/-- Truthiness of `task.exception()` (only consulted after `task.done()`). -/
def taskExc : TaskStatus → Bool
  | .running => false
  | .doneOk => false
  | .doneErr => true

/-- An `asyncio.Task` handle: an identity (so that distinct
`asyncio.create_task` calls yield distinct handles) and its status as
observable at a given moment. -/
structure ATask where
  tid : Nat
  status : TaskStatus
  deriving Repr, DecidableEq

/-- The connect-caching fields stored on each `Device`:
`_connect_task` (`None` before the first connect) and `_connect_mock_arg`
(`None` before the first connect, else the `bool(mock)` of the previous
connect). -/
structure ConnState where
  connect_task : Option ATask
  connect_mock_arg : Option Bool
  deriving Repr, DecidableEq

/-- Class-level defaults: `_connect_task = None`, `_connect_mock_arg = None`. -/
def ConnState.initial : ConnState := ⟨none, none⟩

/-- `uses_mock is self._connect_mock_arg and self._connect_task and not
(self._connect_task.done() and self._connect_task.exception())` from
`Device.connect`. -/
def can_use_previous_connect (s : ConnState) (uses_mock : Bool) : Bool :=
  decide (s.connect_mock_arg = some uses_mock) &&
    (match s.connect_task with
     | none => false
     | some t => !(taskDone t.status && taskExc t.status))

/-- One call of `Device.connect`, abstracted over the actual awaiting:
`uses_mock = bool(mock)`; if `force_reconnect` or the previous connect is not
reusable, record the mode, start a fresh task (identity `fresh`, initially
pending) over the connector fan-out; the returned `Bool` is whether a new
fan-out task was created.  In either case the task subsequently awaited is
`connect_task` of the returned state. -/
def connectStep (s : ConnState) (uses_mock force_reconnect : Bool) (fresh : Nat) :
    ConnState × Bool :=
  if force_reconnect || !(can_use_previous_connect s uses_mock) then
    ({ connect_task := some ⟨fresh, .running⟩, connect_mock_arg := some uses_mock }, true)
  else
    (s, false)

/-- Environment action between connect calls: the stored task (if any) runs
and its observable status changes; the handle identity is unchanged. -/
def settleTask (s : ConnState) (st : TaskStatus) : ConnState :=
  { s with connect_task := s.connect_task.map fun t => ⟨t.tid, st⟩ }

/-- The reuse predicate as the spec words it: the requested mode equals the
stored mode argument, a previous connect task exists, and that task is not
both finished and holding an exception. -/
def canReuseSpec (s : ConnState) (uses_mock : Bool) : Prop :=
  s.connect_mock_arg = some uses_mock ∧
    ∃ t, s.connect_task = some t ∧ ¬(taskDone t.status = true ∧ taskExc t.status = true)

/-! ## Naming: `Device.set_name` -/

/-- Python `s.strip("_")`: removes leading AND trailing underscores. -/
def pyStripUnderscore (s : String) : String :=
  String.mk (((s.toList.dropWhile (· == '_')).reverse.dropWhile (· == '_')).reverse)

/-- Stripping only leading underscores, as some descriptions word it. -/
def leadingStripUnderscore (s : String) : String :=
  String.mk (s.toList.dropWhile (· == '_'))

mutual

/-- A `Device` for the naming traversal: its `_name` and its `children()`
enumeration, each child tagged with its attribute (field) name. -/
inductive DTree : Type where
  | mk (name : String) (children : Forest)

/-- The ordered `(fieldName, childDevice)` pairs yielded by `children()`. -/
inductive Forest : Type where
  | nil : Forest
  | cons (fieldName : String) (child : DTree) (rest : Forest) : Forest

end

mutual

/-- `Device.set_name`: sets `self._name = name`, then for each
`(child_name, child)` of `children()` computes
`f"{self.name}-{child_name.strip('_')}" if self.name else ""` and recurses. -/
def DTree.set_name (name : String) : DTree → DTree
  | .mk _ cs => .mk name (Forest.setChildNames name cs)

/-- The loop body of `Device.set_name` over the children. -/
def Forest.setChildNames (parentName : String) : Forest → Forest
  | .nil => .nil
  | .cons f c rest =>
      .cons f
        (DTree.set_name
          (if parentName = "" then "" else parentName ++ "-" ++ pyStripUnderscore f) c)
        (Forest.setChildNames parentName rest)

end

mutual

/-- Every node of the tree, as (path of field names from the root, name). -/
def DTree.namedPaths : DTree → List (List String × String)
  | .mk n cs => ([], n) :: Forest.namedPaths cs

/-- `namedPaths` over a forest of children. -/
def Forest.namedPaths : Forest → List (List String × String)
  | .nil => []
  | .cons f c rest =>
      (DTree.namedPaths c).map (fun p => (f :: p.1, p.2)) ++ Forest.namedPaths rest

end

/-- The name a descendant at `path` should carry after `set_name root`,
given a choice of field-name stripping function: the root name followed by
each stripped field name on the path joined by `-`, or `""` throughout when
the root name is empty. -/
def claimedName (strip : String → String) (root : String) (path : List String) : String :=
  if root = "" then ""
  else path.foldl (fun acc f => acc ++ "-" ++ strip f) root

/-! ## Child enumeration: `Device.children` and `DeviceVector.children` -/

/-- An entry of a `Device`'s `__dict__`: either a `Device` instance
(identified by a `Nat`) or any non-`Device` value. -/
inductive PyAttr where
  | device (d : Nat)
  | nonDevice
  deriving Repr, DecidableEq

/-- `Device.children`: yield `(attr_name, attr)` for every `__dict__` entry
whose name is not `"parent"` and whose value is a `Device`. -/
def deviceChildren (attrs : List (String × PyAttr)) : List (String × Nat) :=
  attrs.filterMap fun a =>
    if a.1 ≠ "parent" then
      match a.2 with
      | .device d => some (a.1, d)
      | .nonDevice => none
    else none

/-- `DeviceVector.children`: yield `(str(key), child)` for every entry of
`self._children`. -/
def deviceVectorChildren (m : List (Int × Nat)) : List (String × Nat) :=
  m.map fun p => (toString p.1, p.2)

/-! ## `DeviceConnector.connect` fan-out -/

/-- The `mock` argument of a connect call: `False`, or a `unittest.mock.Mock`
identified by the attribute path that derives it from the root mock
(`getattr(mock, name)` appends `name`). -/
inductive MockArg where
  | off
  | obj (path : List String)
  deriving Repr, DecidableEq

/-- Python truthiness of the `mock` argument (`Mock()` instances are truthy,
`False` is not). -/
def MockArg.truthy : MockArg → Bool
  | .off => false
  | .obj _ => true

/-- `getattr(mock, name)`: the child `Mock` held at attribute `name`. -/
def mockGetattr : MockArg → String → MockArg
  | .off, _ => .off
  | .obj p, n => .obj (p ++ [n])

/-- One `child_device.connect(mock=child_mock, timeout=timeout,
force_reconnect=force_reconnect)` call built by the fan-out. -/
structure ConnectCall where
  childName : String
  child : Nat
  mock : MockArg
  timeout : Nat
  force_reconnect : Bool
  deriving Repr, DecidableEq

/-- `DeviceConnector.connect`: for each `(name, child_device)` of
`device.children()`, compute `child_mock = getattr(mock, name) if mock else
mock` and build one connect call with the same timeout and force_reconnect. -/
def fanOutCalls (children : List (String × Nat)) (mock : MockArg)
    (timeout : Nat) (force_reconnect : Bool) : List ConnectCall :=
  children.map fun c =>
    { childName := c.1
      child := c.2
      mock := if mock.truthy then mockGetattr mock c.1 else mock
      timeout := timeout
      force_reconnect := force_reconnect }

/-- The child mock argument as the spec words it: `False` when the parent is
not in mock mode, the parent's sub-mock at the child's name otherwise. -/
def specChildMock (mock : MockArg) (name : String) : MockArg :=
  match mock with
  | .off => .off
  | .obj p => .obj (p ++ [name])

/-! ## Attribute assignment: `Device.__setattr__`, `DeviceVector` -/

/-- A Python value as far as the embedded attribute/item code inspects it. -/
inductive PyVal where
  | pyInt (n : Int)
  | pyDev (d : Nat)
  | pyStr (s : String)
  | pyNone
  deriving Repr, DecidableEq

/-- `isinstance(v, Device)` -/
def PyVal.isDev : PyVal → Bool
  | .pyDev _ => true
  | _ => false

/-- `isinstance(v, int)` -/
def PyVal.isInt : PyVal → Bool
  | .pyInt _ => true
  | _ => false

/-- The `name == "parent"` branch of `Device.__setattr__`: with `cur` the
current `self.parent`, raise `TypeError` unless `self.parent in (value,
None)`, else store `value` as the new parent.  Returns (raised error if any,
resulting parent field). -/
def parentFieldSet (cur value : PyVal) : Option PyErr × PyVal :=
  if cur = value ∨ cur = .pyNone then (none, value)
  else
    (some (.typeError "Cannot set the parent: it is already a child of another Device"),
      cur)

/-- `Device.__setattr__(self, name, value)`: `selfParent` is `self.parent`,
`valueParent` is `value.parent` when `value` is a `Device` (identified via
`selfId` for `self`).  Returns (raised error if any, new `self.parent`, new
`value.parent`, whether the attribute binding was stored by
`super().__setattr__`). -/
def deviceSetattr (name : String) (value : PyVal) (selfId : Nat)
    (selfParent valueParent : PyVal) : Option PyErr × PyVal × PyVal × Bool :=
  if name = "parent" then
    match parentFieldSet selfParent value with
    | (some e, _) => (some e, selfParent, valueParent, false)
    | (none, p) => (none, p, valueParent, true)
  else
    match value with
    | .pyDev _ =>
      match parentFieldSet valueParent (.pyDev selfId) with
      | (some e, _) => (some e, selfParent, valueParent, false)
      | (none, p) => (none, selfParent, p, true)
    | _ => (none, selfParent, valueParent, true)

/-- Outcome of `Device.__setattr__` restricted to the `value.parent` field:
the error raised (if any) and the resulting `value.parent`, unchanged on
error. -/
def assignDeviceField (valueParent : PyVal) (selfId : Nat) : Option PyErr × PyVal :=
  parentFieldSet valueParent (.pyDev selfId)

/-- Python dict assignment `d[k] = v` on an insertion-ordered association
list: overwrite in place if the key exists, else append. -/
def dictInsert (l : List (Int × Nat)) (k : Int) (v : Nat) : List (Int × Nat) :=
  if l.any (fun p => p.1 = k) then l.map (fun p => if p.1 = k then (k, v) else p)
  else l ++ [(k, v)]

/-- Python dict lookup `d[k]` on the association list, as an `Option`. -/
def dictGet (l : List (Int × Nat)) (k : Int) : Option Nat :=
  (l.find? (fun p => p.1 = k)).map (·.2)

/-- Result of `DeviceVector.__setitem__`: raised error if any, the
`_children` mapping, and the assigned value's `parent` field. -/
structure SetItemResult where
  err : Option PyErr
  children : List (Int × Nat)
  valueParent : PyVal
  deriving Repr, DecidableEq

/-- `DeviceVector.__setitem__(self, key, value)`: assert `key` is an `int`,
assert `value` is a `Device`, then `self._children[key] = value` and
`value.parent = self` (the latter through `Device.__setattr__`'s parent
check).  `selfId` identifies the vector, `valueParent` is `value.parent`. -/
def vecSetItem (children : List (Int × Nat)) (key value : PyVal) (selfId : Nat)
    (valueParent : PyVal) : SetItemResult :=
  match key with
  | .pyInt k =>
    match value with
    | .pyDev d =>
      let children' := dictInsert children k d
      match parentFieldSet valueParent (.pyDev selfId) with
      | (some e, _) => ⟨some e, children', valueParent⟩
      | (none, p) => ⟨none, children', p⟩
    | _ => ⟨some (.assertionError "Expected Device"), children, valueParent⟩
  | _ => ⟨some (.assertionError "Expected int"), children, valueParent⟩

/-- The state of a `DeviceVector` relevant to `__setattr__`: its keyed
`_children` mapping and its own `parent` field. -/
structure VecAttrState where
  children : List (Int × Nat)
  parent : PyVal
  deriving Repr, DecidableEq

/-- `DeviceVector.__setattr__(self, name, child)`: raise `AttributeError` if
`name != "parent"` and `child` is a `Device`, else defer to
`Device.__setattr__`.  Returns (raised error if any, resulting vector state,
resulting `child.parent`). -/
def deviceVectorSetattr (st : VecAttrState) (name : String) (value : PyVal)
    (selfId : Nat) (valueParent : PyVal) : Option PyErr × VecAttrState × PyVal :=
  if name ≠ "parent" ∧ value.isDev then
    (some (.attributeError
        "DeviceVector can only have integer named children, set via device_vector[i] = child"),
      st, valueParent)
  else
    match deviceSetattr name value selfId st.parent valueParent with
    | (e, sp, vp, _) => (e, { st with parent := sp }, vp)

/-! ## `DeviceCollector.__exit__` -/

/-- Outcome of the synchronous `DeviceCollector.__exit__`: the error raised
(if any) and whether `_on_exit` (naming and connecting of the collected
devices) actually ran. -/
structure ExitOutcome where
  err : Option PyErr
  ranOnExit : Bool
  deriving Repr, DecidableEq

/-- `DeviceCollector.__exit__`: if `in_bluesky_event_loop()` raise
`RuntimeError` at once; otherwise hand `_on_exit()` to
`call_in_bluesky_event_loop`, which raises `RuntimeError` (re-raised as
`NotConnected` with guidance) when no bluesky event loop is available, and
runs `_on_exit` when one is (`inBlueskyLoop` and `loopAvailable` are the
environment's answers to those two bluesky calls). -/
def deviceCollectorExit (inBlueskyLoop loopAvailable : Bool) : ExitOutcome :=
  if inBlueskyLoop then
    ⟨some (.runtimeError
        ("Cannot use DeviceConnector inside a plan, instead use " ++
          "`yield from ophyd_async.plan_stubs.ensure_connected(device)`")),
      false⟩
  else if loopAvailable then ⟨none, true⟩
  else
    ⟨some (.notConnected
        ("Could not connect devices. Is the bluesky event loop running? See " ++
          "https://blueskyproject.io/ophyd-async/main/" ++
          "user/explanations/event-loop-choice.html for more info.")),
      false⟩

/-! ## Helper lemmas -/

theorem string_append_ne_empty (a b : String) (h : a ≠ "") : a ++ b ≠ "" := by
  intro hab
  apply h
  have hd : a.data ++ b.data = [] := by
    have h2 := congrArg String.data hab
    simpa [String.data_append] using h2
  have ha : a.data = [] := (List.append_eq_nil.mp hd).1
  exact String.ext (by simpa using ha)

theorem claimedName_child (strip : String → String) (nm f : String) (p : List String) :
    claimedName strip (if nm = "" then "" else nm ++ "-" ++ strip f) p
      = claimedName strip nm (f :: p) := by
  by_cases h : nm = ""
  · simp [claimedName, h]
  · have hne : nm ++ "-" ++ strip f ≠ "" :=
      string_append_ne_empty _ _ (string_append_ne_empty _ _ h)
    simp [claimedName, h, hne]

theorem claimedName_nil (strip : String → String) (nm : String) :
    claimedName strip nm [] = nm := by
  by_cases h : nm = "" <;> simp [claimedName, h]

mutual

theorem DTree.set_name_names (nm : String) (t : DTree) :
    ∀ pn ∈ (DTree.set_name nm t).namedPaths,
      pn.2 = claimedName pyStripUnderscore nm pn.1 :=
  match t with
  | .mk _ cs => by
    intro pn hpn
    rw [DTree.set_name, DTree.namedPaths] at hpn
    rcases List.mem_cons.mp hpn with h | h
    · subst h
      exact (claimedName_nil _ _).symm
    · exact Forest.setChildNames_names nm cs pn h

theorem Forest.setChildNames_names (nm : String) (cs : Forest) :
    ∀ pn ∈ (Forest.setChildNames nm cs).namedPaths,
      pn.2 = claimedName pyStripUnderscore nm pn.1 :=
  match cs with
  | .nil => by intro pn hpn; simp [Forest.setChildNames, Forest.namedPaths] at hpn
  | .cons f c rest => by
    intro pn hpn
    rw [Forest.setChildNames, Forest.namedPaths] at hpn
    rcases List.mem_append.mp hpn with h | h
    · obtain ⟨q, hq, rfl⟩ := List.mem_map.mp h
      have hq2 := DTree.set_name_names
        (if nm = "" then "" else nm ++ "-" ++ pyStripUnderscore f) c q hq
      simpa [claimedName_child] using hq2
    · exact Forest.setChildNames_names nm rest pn h

end

theorem find_overwrite (l : List (Int × Nat)) (k : Int) (v : Nat) :
    (l.map (fun p => if p.1 = k then (k, v) else p)).find? (fun p => decide (p.1 = k))
      = if l.any (fun p => decide (p.1 = k)) then some (k, v) else none := by
  induction l with
  | nil => simp
  | cons a t ih =>
    by_cases hk : a.1 = k
    · simp [List.find?, hk]
    · simp only [List.map_cons, if_neg hk, List.any_cons, List.find?,
        decide_eq_false hk, Bool.false_or]
      exact ih

theorem find_append_single (l : List (Int × Nat)) (k : Int) (v : Nat)
    (h : l.any (fun p => decide (p.1 = k)) = false) :
    (l ++ [(k, v)]).find? (fun p => decide (p.1 = k)) = some (k, v) := by
  induction l with
  | nil => simp [List.find?]
  | cons a t ih =>
    simp only [List.any_cons, Bool.or_eq_false_iff] at h
    simp only [List.cons_append, List.find?, h.1]
    exact ih h.2

theorem dictGet_dictInsert (l : List (Int × Nat)) (k : Int) (v : Nat) :
    dictGet (dictInsert l k v) k = some v := by
  unfold dictGet dictInsert
  by_cases h : l.any (fun p => decide (p.1 = k))
  · rw [if_pos h, find_overwrite, if_pos h]
    rfl
  · have h' : (l.any fun p => decide (p.1 = k)) = false := by
      simp only [Bool.not_eq_true] at h
      exact h
    rw [if_neg h, find_append_single l k v h']
    rfl

/-! ## Claim theorems -/

/-- C1: after a first connect (from the initial state) whose task did not
finish with a failure, a second connect with the same mode flag and
`force_reconnect = False` does not start a new connector fan-out and leaves
the stored task untouched, so the fan-out runs exactly once across both
calls; a subsequent call with `force_reconnect = True` starts the fan-out
again. -/
theorem connect_same_mode_fans_out_once (m : Bool) (t : TaskStatus) (i j k : Nat)
    (h : t ≠ TaskStatus.doneErr) :
    (connectStep ConnState.initial m false i).2 = true ∧
    (connectStep (settleTask (connectStep ConnState.initial m false i).1 t) m false j).2
      = false ∧
    (connectStep (settleTask (connectStep ConnState.initial m false i).1 t) m false j).1
      = settleTask (connectStep ConnState.initial m false i).1 t ∧
    (connectStep
      ((connectStep (settleTask (connectStep ConnState.initial m false i).1 t) m
        false j).1) m true k).2 = true := by
  cases t <;> simp_all [connectStep, can_use_previous_connect, settleTask,
    ConnState.initial, taskDone, taskExc]

theorem connect_same_mode_fans_out_once_witness :
    (connectStep ConnState.initial true false 0).2 = true ∧
    (connectStep (settleTask (connectStep ConnState.initial true false 0).1
      TaskStatus.doneOk) true false 1).2 = false ∧
    (connectStep (settleTask (connectStep ConnState.initial true false 0).1
      TaskStatus.doneOk) true false 1).1
      = settleTask (connectStep ConnState.initial true false 0).1 TaskStatus.doneOk ∧
    (connectStep
      ((connectStep (settleTask (connectStep ConnState.initial true false 0).1
        TaskStatus.doneOk) true false 1).1) true true 2).2 = true :=
  connect_same_mode_fans_out_once true TaskStatus.doneOk 0 1 2 (by simp)

/-- C2: a connect in the opposite mode of the stored one always starts a
fresh connector fan-out, whatever the status of the stored task, and the
task then awaited (the stored task of the new state) is the freshly created
one, never the other mode's task. -/
theorem connect_mode_switch_fresh_fanout (m : Bool) (t : TaskStatus) (i fresh : Nat) :
    (connectStep ⟨some ⟨i, t⟩, some m⟩ (!m) false fresh).2 = true ∧
    (connectStep ⟨some ⟨i, t⟩, some m⟩ (!m) false fresh).1.connect_task
      = some ⟨fresh, TaskStatus.running⟩ ∧
    (fresh ≠ i →
      ∀ u, (connectStep ⟨some ⟨i, t⟩, some m⟩ (!m) false fresh).1.connect_task = some u →
        u.tid ≠ i) := by
  cases m <;> simp [connectStep, can_use_previous_connect]

theorem connect_mode_switch_fresh_fanout_witness :
    (connectStep ⟨some ⟨0, TaskStatus.doneOk⟩, some true⟩ (!true) false 1).2 = true ∧
    (connectStep ⟨some ⟨0, TaskStatus.doneOk⟩, some true⟩ (!true) false 1).1.connect_task
      = some ⟨1, TaskStatus.running⟩ ∧
    (1 ≠ 0 →
      ∀ u, (connectStep ⟨some ⟨0, TaskStatus.doneOk⟩, some true⟩ (!true) false
          1).1.connect_task = some u →
        u.tid ≠ 0) :=
  connect_mode_switch_fresh_fanout true TaskStatus.doneOk 0 1

/-- C4: the reuse decision of `Device.connect` equals the predicate
"requested mode equals the stored mode argument, a previous connect task
exists, and that task is not both finished and holding an exception"; in
particular a finished-successful task and a still-running task are reused,
and with a finished-failed task a same-mode connect starts a new fan-out. -/
theorem connect_reuse_predicate :
    (∀ (s : ConnState) (m : Bool),
        can_use_previous_connect s m = true ↔ canReuseSpec s m) ∧
    (∀ (m : Bool) (i : Nat),
        can_use_previous_connect ⟨some ⟨i, TaskStatus.doneOk⟩, some m⟩ m = true) ∧
    (∀ (m : Bool) (i : Nat),
        can_use_previous_connect ⟨some ⟨i, TaskStatus.running⟩, some m⟩ m = true) ∧
    (∀ (m : Bool) (i fresh : Nat),
        (connectStep ⟨some ⟨i, TaskStatus.doneErr⟩, some m⟩ m false fresh).2 = true) := by
  refine ⟨?_, ?_, ?_, ?_⟩
  · intro s m
    obtain ⟨task, marg⟩ := s
    cases task with
    | none => simp [can_use_previous_connect, canReuseSpec]
    | some t =>
      obtain ⟨tid, st⟩ := t
      cases st <;> simp [can_use_previous_connect, canReuseSpec, taskDone, taskExc]
  · intro m i; simp [can_use_previous_connect, taskDone, taskExc]
  · intro m i; simp [can_use_previous_connect, taskDone, taskExc]
  · intro m i fresh; simp [connectStep, can_use_previous_connect, taskDone, taskExc]

/-- C3 counterexample: `str.strip("_")` removes leading AND trailing
underscores, so on a tree with a single child held in a field named `"x_"`,
`set_name "X"` names the child `"X-x"`, while the claimed formula (field
names stripped of leading underscores only) would give `"X-x_"`. -/
theorem set_name_leading_strip_counterexample :
    ¬ (∀ pn ∈ (DTree.set_name "X"
          (DTree.mk "" (Forest.cons "x_" (DTree.mk "" Forest.nil) Forest.nil))).namedPaths,
        pn.2 = claimedName leadingStripUnderscore "X" pn.1) := by
  decide

/-- C3 (amended): after `set_name X` on the root, every descendant's name is
`X` followed by the chain of field names on the path from the root, each
stripped of leading and trailing underscores, joined by `-` at each level;
`set_name ""` names every descendant `""` (both cases are `claimedName
pyStripUnderscore`). -/
theorem set_name_descendant_names (t : DTree) (x : String) :
    ∀ pn ∈ (DTree.set_name x t).namedPaths,
      pn.2 = claimedName pyStripUnderscore x pn.1 :=
  DTree.set_name_names x t

theorem set_name_descendant_names_witness :
    ((["x_"], "X-x") : List String × String).2
      = claimedName pyStripUnderscore "X" ((["x_"], "X-x") : List String × String).1 :=
  set_name_descendant_names
    (DTree.mk "" (Forest.cons "x_" (DTree.mk "" Forest.nil) Forest.nil)) "X"
    (["x_"], "X-x") (by decide)

/-- C5: assigning a node whose parent is `p` as a Device-valued field of a
different parent `q` raises the re-parenting error (`TypeError` in the code,
the spec's ConfigurationError) and leaves the node's parent reference (and
the attribute binding) unchanged; re-assigning it under its current parent,
or assigning a node whose parent is `None`, succeeds without error. -/
theorem reparenting_guard (c p q : Nat) (vp : PyVal) (name : String)
    (hname : name ≠ "parent") (hpq : p ≠ q) :
    (∃ msg, (deviceSetattr name (.pyDev c) q vp (.pyDev p)).1
        = some (PyErr.typeError msg)) ∧
    (deviceSetattr name (.pyDev c) q vp (.pyDev p)).2.2.1 = .pyDev p ∧
    (deviceSetattr name (.pyDev c) q vp (.pyDev p)).2.2.2 = false ∧
    deviceSetattr name (.pyDev c) p vp (.pyDev p) = (none, vp, .pyDev p, true) ∧
    deviceSetattr name (.pyDev c) q vp .pyNone = (none, vp, .pyDev q, true) := by
  simp [deviceSetattr, parentFieldSet, hname, hpq]

theorem reparenting_guard_witness :
    (∃ msg, (deviceSetattr "x" (.pyDev 0) 2 .pyNone (.pyDev 1)).1
        = some (PyErr.typeError msg)) ∧
    (deviceSetattr "x" (.pyDev 0) 2 .pyNone (.pyDev 1)).2.2.1 = .pyDev 1 ∧
    (deviceSetattr "x" (.pyDev 0) 2 .pyNone (.pyDev 1)).2.2.2 = false ∧
    deviceSetattr "x" (.pyDev 0) 1 .pyNone (.pyDev 1) = (none, .pyNone, .pyDev 1, true) ∧
    deviceSetattr "x" (.pyDev 0) 2 .pyNone .pyNone = (none, .pyNone, .pyDev 2, true) :=
  reparenting_guard 0 1 2 .pyNone "x" (by decide) (by decide)

/-- C6: the connector fan-out makes exactly one child connect call per entry
of `device.children()`, each with the same timeout and force_reconnect as
the parent call, and each child's mock argument is `False` when the parent's
mock is falsy and the sub-mock `getattr(mock, name)` when the parent is in
mock mode. -/
theorem fanout_one_call_per_child (children : List (String × Nat)) (mock : MockArg)
    (timeout : Nat) (force : Bool) (i : Nat) :
    (fanOutCalls children mock timeout force).length = children.length ∧
    (fanOutCalls children mock timeout force)[i]? = (children[i]?).map (fun c =>
      { childName := c.1, child := c.2, mock := specChildMock mock c.1,
        timeout := timeout, force_reconnect := force }) := by
  cases mock <;>
    simp [fanOutCalls, specChildMock, mockGetattr, MockArg.truthy, List.getElem?_map]

/-- C7: `DeviceVector.__setitem__` with a non-integer key, or with an
integer key and a non-Device value, fails with the corresponding assertion
and mutates neither the `_children` mapping nor the value's parent link;
with an integer key and a Device value (whose parent link permits it) it
stores the mapping entry and sets the child's parent to the collection. -/
theorem vector_setitem_type_guard (children : List (Int × Nat)) (key value : PyVal)
    (selfId : Nat) (vp : PyVal) :
    (key.isInt = false →
      vecSetItem children key value selfId vp
        = ⟨some (.assertionError "Expected int"), children, vp⟩) ∧
    (key.isInt = true → value.isDev = false →
      vecSetItem children key value selfId vp
        = ⟨some (.assertionError "Expected Device"), children, vp⟩) ∧
    (∀ k d, key = .pyInt k → value = .pyDev d → (vp = .pyNone ∨ vp = .pyDev selfId) →
      vecSetItem children key value selfId vp
          = ⟨none, dictInsert children k d, .pyDev selfId⟩ ∧
        dictGet (vecSetItem children key value selfId vp).children k = some d) := by
  refine ⟨?_, ?_, ?_⟩
  · intro hk
    cases key <;> simp_all [PyVal.isInt, vecSetItem]
  · intro hk hv
    cases key <;> simp_all [PyVal.isInt]
    cases value <;> simp_all [PyVal.isDev, vecSetItem]
  · rintro k d rfl rfl hvp
    rcases hvp with rfl | rfl <;>
      simp [vecSetItem, parentFieldSet, dictGet_dictInsert]

theorem vector_setitem_type_guard_witness :
    vecSetItem [] (.pyStr "a") (.pyDev 2) 5 .pyNone
        = ⟨some (.assertionError "Expected int"), [], .pyNone⟩ ∧
    vecSetItem [] (.pyInt 1) (.pyStr "a") 5 .pyNone
        = ⟨some (.assertionError "Expected Device"), [], .pyNone⟩ ∧
    (vecSetItem [] (.pyInt 1) (.pyDev 2) 5 .pyNone
        = ⟨none, dictInsert [] 1 2, .pyDev 5⟩ ∧
      dictGet (vecSetItem [] (.pyInt 1) (.pyDev 2) 5 .pyNone).children 1 = some 2) :=
  ⟨(vector_setitem_type_guard [] (.pyStr "a") (.pyDev 2) 5 .pyNone).1 rfl,
    (vector_setitem_type_guard [] (.pyInt 1) (.pyStr "a") 5 .pyNone).2.1 rfl rfl,
    (vector_setitem_type_guard [] (.pyInt 1) (.pyDev 2) 5 .pyNone).2.2 1 2 rfl rfl
      (Or.inl rfl)⟩

/-- C8: assigning a Device to a `DeviceVector` through any attribute name
other than `parent` raises the `AttributeError` directing the caller to
keyed insertion, leaving the keyed child mapping (indeed the whole vector
state) and the child's parent link unchanged. -/
theorem vector_setattr_rejects_field_child (st : VecAttrState) (name : String)
    (d selfId : Nat) (vp : PyVal) (h : name ≠ "parent") :
    deviceVectorSetattr st name (.pyDev d) selfId vp
      = (some (.attributeError
          "DeviceVector can only have integer named children, set via device_vector[i] = child"),
        st, vp) := by
  simp [deviceVectorSetattr, h, PyVal.isDev]

theorem vector_setattr_rejects_field_child_witness :
    deviceVectorSetattr ⟨[(0, 7)], .pyNone⟩ "motor" (.pyDev 3) 5 .pyNone
      = (some (.attributeError
          "DeviceVector can only have integer named children, set via device_vector[i] = child"),
        ⟨[(0, 7)], .pyNone⟩, .pyNone) :=
  vector_setattr_rejects_field_child ⟨[(0, 7)], .pyNone⟩ "motor" 3 5 .pyNone (by decide)

/-- C9: the synchronous `DeviceCollector.__exit__` raises `RuntimeError`
before any naming or connecting when an experiment-plan execution context
(the bluesky event loop) is active; otherwise, when no separately-owned
bluesky event loop is available, it raises `NotConnected` carrying the
actionable guidance message, and when one is available `_on_exit` runs. -/
theorem collector_exit_guards :
    (∀ loopAvailable : Bool,
      (deviceCollectorExit true loopAvailable).ranOnExit = false ∧
      ∃ msg, (deviceCollectorExit true loopAvailable).err
          = some (PyErr.runtimeError msg)) ∧
    deviceCollectorExit false false
      = ⟨some (.notConnected
          ("Could not connect devices. Is the bluesky event loop running? See " ++
            "https://blueskyproject.io/ophyd-async/main/" ++
            "user/explanations/event-loop-choice.html for more info.")),
        false⟩ ∧
    deviceCollectorExit false true = ⟨none, true⟩ := by
  refine ⟨?_, rfl, rfl⟩
  intro la
  exact ⟨rfl, _, rfl⟩

/-- C10: `Device.children` yields exactly the Device-valued instance
attributes whose name is not `"parent"`, so the parent reference is never
yielded and the naming/connect traversals never recurse upward; and
`DeviceVector.children` yields exactly the keyed children as
`(str(key), child)` pairs. -/
theorem children_never_yield_parent :
    (∀ (attrs : List (String × PyAttr)) (n : String) (d : Nat),
        (n, d) ∈ deviceChildren attrs ↔ ((n, PyAttr.device d) ∈ attrs ∧ n ≠ "parent")) ∧
    (∀ (attrs : List (String × PyAttr)) (pn : String × Nat),
        pn ∈ deviceChildren attrs → pn.1 ≠ "parent") ∧
    (∀ m : List (Int × Nat),
        deviceVectorChildren m = m.map fun p => (toString p.1, p.2)) := by
  have main : ∀ (attrs : List (String × PyAttr)) (n : String) (d : Nat),
      (n, d) ∈ deviceChildren attrs ↔ ((n, PyAttr.device d) ∈ attrs ∧ n ≠ "parent") := by
    intro attrs n d
    simp only [deviceChildren, List.mem_filterMap]
    constructor
    · rintro ⟨⟨n', att⟩, ha, hfa⟩
      by_cases hp : n' = "parent"
      · simp [hp] at hfa
      · cases att with
        | device d' =>
          simp only [ne_eq, hp, not_false_eq_true, if_true, Option.some.injEq,
            Prod.mk.injEq] at hfa
          obtain ⟨rfl, rfl⟩ := hfa
          exact ⟨ha, hp⟩
        | nonDevice => simp [hp] at hfa
    · rintro ⟨ha, hp⟩
      exact ⟨(n, PyAttr.device d), ha, by simp [hp]⟩
  refine ⟨main, ?_, fun m => rfl⟩
  intro attrs pn hpn
  obtain ⟨n, d⟩ := pn
  exact ((main attrs n d).mp hpn).2

theorem children_never_yield_parent_witness :
    (("a", 3) : String × Nat).1 ≠ "parent" :=
  children_never_yield_parent.2.1 [("a", PyAttr.device 3)] ("a", 3) (by decide)

end OphydAsync
